import Mathlib

/-!
Verification of the pagination, authentication-callback, orchestration and
filename-sanitisation logic of a Spotify playlist backup program (main.go).

The Go source is embedded shallowly: each fetcher's HTTP loop becomes a
fuel-indexed recursive function over an abstract HTTP client
`String → GetOutcome π` mapping a URL to the outcome of one GET request,
and each function returns, besides its result, the list of URLs it
requested (one entry per GET issued).
-/

set_option maxHeartbeats 1000000

namespace SpotifyBackup

/-! ## Data model (main.go lines 31-117) -/

/-- main.go 31-34: a playlist has a name and an id. -/
structure Playlist where
  name : String
  id : String
deriving DecidableEq

/-- main.go 36-44: response envelope of the playlist listing endpoint. -/
structure PlaylistPage where
  items : List Playlist
  href : String
  limit : Int
  next : String
  offset : Int
  previous : String
  total : Int
deriving DecidableEq

/-- main.go 113-117. -/
structure Image where
  height : Int
  url : String
  width : Int
deriving DecidableEq

/-- main.go 105-107. -/
structure ExternalUrl where
  spotify : String
deriving DecidableEq

/-- main.go 109-111. -/
structure ExternalId where
  isrc : String
deriving DecidableEq

/-- main.go 96-103. -/
structure Artist where
  externalUrls : ExternalUrl
  href : String
  id : String
  name : String
  type' : String
  uri : String
deriving DecidableEq

/-- main.go 80-94. -/
structure Album where
  albumGroup : String
  albumType : String
  artists : List Artist
  externalUrls : ExternalUrl
  href : String
  id : String
  images : List Image
  name : String
  releaseDate : String
  releaseDatePrecision : String
  totalTracks : Int
  type' : String
  uri : String
deriving DecidableEq

/-- main.go 61-78. -/
structure Track where
  album : Album
  artists : List Artist
  discNumber : Int
  durationMs : Int
  explicit : Bool
  externalIds : ExternalId
  externalUrls : ExternalUrl
  href : String
  id : String
  isLocal : Bool
  name : String
  popularity : Int
  previewUrl : String
  trackNumber : Int
  type' : String
  uri : String
deriving DecidableEq

/-- main.go 56-59: a track together with the time it was added. -/
structure Item where
  addedAt : String
  track : Track
deriving DecidableEq

/-- main.go 46-54: response envelope of the track listing endpoints. -/
structure TracksPage where
  items : List Item
  href : String
  limit : Int
  next : String
  offset : Int
  previous : String
  total : Int
deriving DecidableEq

/-! ## HTTP client and fetch result model -/

/-- Outcome of a single `client.Get(url)` together with reading and decoding
its body, as the Go code observes it:
* `transportError`: `client.Get` returned a non-nil error; per the
  `net/http` contract the returned response is then nil for transport
  failures (connection refused, DNS, TLS, ...).
* `readError`: the response arrived but `ioutil.ReadAll(resp.Body)` failed.
* `body (some p)`: the body is valid JSON and `json.Unmarshal` fills the
  envelope with `p`.
* `body none`: the body is not valid JSON; `encoding/json.Unmarshal`
  validates the whole input before writing, so the envelope keeps its zero
  value and the (ignored) error is non-nil. -/
inductive GetOutcome (π : Type) where
  | transportError (msg : String)
  | readError (msg : String)
  | body (b : Option π)
deriving DecidableEq

/-- Result of one fetcher run.
* `ok`: the Go function returned `(items, nil)`.
* `error`: the Go function returned `(nil, err)` with the given message.
* `panic`: the Go function dereferenced a nil pointer (runtime panic).
* `outOfFuel`: artefact of the embedding — the supplied fuel did not cover
  the run; every theorem supplies enough fuel for the run it describes. -/
inductive FetchResult (α : Type) where
  | ok (items : List α)
  | error (msg : String)
  | panic
  | outOfFuel
deriving DecidableEq

/-- main.go 23. -/
def baseAPIAddress : String := "https://api.spotify.com"

/-- main.go 183-185: first URL requested by fetchPlaylists (limit 50). -/
def playlistsInitialUrl : String :=
  baseAPIAddress ++ "/v1/me/playlists?offset=0&limit=50"

/-- main.go 209-211: first URL requested by fetchPlaylistTracks (limit 100). -/
def playlistTracksInitialUrl (playlist : Playlist) : String :=
  baseAPIAddress ++ "/v1/playlists/" ++ playlist.id ++ "/tracks?offset=0&limit=100"

/-- main.go 237-240: first URL requested by fetchSavedTracks (limit 50). -/
def savedTracksInitialUrl : String :=
  baseAPIAddress ++ "/v1/me/tracks?offset=0&limit=50"

/-- Go zero value of `PlaylistPage` (`var page PlaylistPage`, main.go 198). -/
def zeroPlaylistPage : PlaylistPage :=
  { items := [], href := "", limit := 0, next := "", offset := 0, previous := "", total := 0 }

/-- Go zero value of `TracksPage` (`var page TracksPage`, main.go 226/252). -/
def zeroTracksPage : TracksPage :=
  { items := [], href := "", limit := 0, next := "", offset := 0, previous := "", total := 0 }

/-! ## fetchPlaylists (main.go 182-206)

The loop runs while `nextPageUrl != ""`.  On a transport error the code
executes `resp.Body.Close()` before returning; `resp` is nil there, so the
selector is a nil-pointer dereference and the process panics instead of
returning the wrapped error on the next line.  On a body-read error the
wrapped error is returned.  The `json.Unmarshal(data, &page)` error is
discarded, so an undecodable body leaves `page` at its zero value. -/

def fetchPlaylistsLoop (client : String → GetOutcome PlaylistPage) :
    Nat → String → List Playlist → FetchResult Playlist × List String
  | 0, nextPageUrl, playlists =>
      if nextPageUrl = "" then (.ok playlists, []) else (.outOfFuel, [])
  | fuel + 1, nextPageUrl, playlists =>
      if nextPageUrl = "" then (.ok playlists, [])
      else
        match client nextPageUrl with
        | .transportError _msg => (.panic, [nextPageUrl])
        | .readError msg =>
            (.error ("failed to read playlists response: " ++ msg), [nextPageUrl])
        | .body b =>
            let page := b.getD zeroPlaylistPage
            let r := fetchPlaylistsLoop client fuel page.next (playlists ++ page.items)
            (r.1, nextPageUrl :: r.2)

/-- main.go 182-206. -/
def fetchPlaylists (client : String → GetOutcome PlaylistPage) (fuel : Nat) :
    FetchResult Playlist × List String :=
  fetchPlaylistsLoop client fuel playlistsInitialUrl []

/-! ## fetchPlaylistTracks (main.go 208-234)

Same loop shape as fetchPlaylists: nil-response `Close` panic on transport
error, wrapped error on read error, ignored decode error. -/

def fetchPlaylistTracksLoop (client : String → GetOutcome TracksPage) :
    Nat → String → List Item → FetchResult Item × List String
  | 0, nextPageUrl, tracks =>
      if nextPageUrl = "" then (.ok tracks, []) else (.outOfFuel, [])
  | fuel + 1, nextPageUrl, tracks =>
      if nextPageUrl = "" then (.ok tracks, [])
      else
        match client nextPageUrl with
        | .transportError _msg => (.panic, [nextPageUrl])
        | .readError msg =>
            (.error ("failed to read tracks response: " ++ msg), [nextPageUrl])
        | .body b =>
            let page := b.getD zeroTracksPage
            let r := fetchPlaylistTracksLoop client fuel page.next (tracks ++ page.items)
            (r.1, nextPageUrl :: r.2)

/-- main.go 208-234. -/
def fetchPlaylistTracks (client : String → GetOutcome TracksPage) (playlist : Playlist)
    (fuel : Nat) : FetchResult Item × List String :=
  fetchPlaylistTracksLoop client fuel (playlistTracksInitialUrl playlist) []

/-! ## fetchSavedTracks (main.go 236-265)

The loop is `for { ... }`: it never tests the cursor.  Its only successful
exit is `break` when the page's item count is below the limit (50).  A
transport error returns the wrapped error (no nil `Close` here).  When a
page has at least 50 items the loop always issues another GET for
`page.Next` — even when that cursor is empty, in which case the GET of the
empty URL fails inside `net/http` and the whole fetch returns an error. -/

def fetchSavedTracksLoop (client : String → GetOutcome TracksPage) :
    Nat → String → List Item → FetchResult Item × List String
  | 0, _, _ => (.outOfFuel, [])
  | fuel + 1, nextPageUrl, tracks =>
      match client nextPageUrl with
      | .transportError msg =>
          (.error ("failed to fetch saved tracks: " ++ msg), [nextPageUrl])
      | .readError msg =>
          (.error ("failed to read saved tracks response: " ++ msg), [nextPageUrl])
      | .body b =>
          let savedTracksPage := b.getD zeroTracksPage
          let tracks' := tracks ++ savedTracksPage.items
          if savedTracksPage.items.length < 50 then (.ok tracks', [nextPageUrl])
          else
            let r := fetchSavedTracksLoop client fuel savedTracksPage.next tracks'
            (r.1, nextPageUrl :: r.2)

/-- main.go 236-265. -/
def fetchSavedTracks (client : String → GetOutcome TracksPage) (fuel : Nat) :
    FetchResult Item × List String :=
  fetchSavedTracksLoop client fuel savedTracksInitialUrl []

/-! ## saveJSONToFile filename derivation (main.go 267-289)

The entity name is first passed through Go's `path/filepath.Clean`
(main.go 281), then every maximal run of characters outside
`[a-zA-Z0-9_]` is replaced by a single `-` via
`regexp.MustCompile` and `ReplaceAllString` (main.go 282), and the file is
written to `backups/<safe>.json` (main.go 284). -/

/-- Character class of the Go regular expression `[a-zA-Z0-9_]`
(`Char.isLower`, `Char.isUpper`, `Char.isDigit` are exactly the ASCII
ranges a-z, A-Z, 0-9). -/
def isWordChar (c : Char) : Bool :=
  c.isLower || c.isUpper || c.isDigit || c == '_'

/-- Replacement pass of `ReplaceAllString` with pattern `[^a-zA-Z0-9_]+`
and replacement `-`: the flag records whether the previous character was
part of a run already replaced, so each maximal disallowed run emits one
single `-`.  Go regular expressions operate on runes, matching `Char`. -/
def collapseAux : List Char → Bool → List Char
  | [], _ => []
  | c :: cs, inRun =>
      if isWordChar c then c :: collapseAux cs false
      else if inRun then collapseAux cs true
      else '-' :: collapseAux cs true

/-- Embeds `regexp.MustCompile` of the pattern and `ReplaceAllString`
applied with replacement `-` (main.go 282). -/
def replaceDisallowedRuns (s : String) : String :=
  String.mk (collapseAux s.data false)

/-- Split a character list on `/`, keeping empty segments. -/
def splitSlash : List Char → List (List Char)
  | [] => [[]]
  | '/' :: cs => [] :: splitSlash cs
  | c :: cs =>
      match splitSlash cs with
      | [] => [[c]]
      | g :: gs => (c :: g) :: gs

/-- Reassemble a cleaned path from its rootedness and its joined
elements: a rooted path gets its leading slash back (just `/` when no
elements remain), an empty relative path becomes `.`. -/
def assemblePath (rooted : Bool) (body : List Char) : List Char :=
  if rooted then
    match body with
    | [] => ['/']
    | _ => '/' :: body
  else
    match body with
    | [] => ['.']
    | _ => body

/-- Models Go `path/filepath.Clean` (Unix rules) from its documented
algorithm: replace runs of slashes by one slash, drop `.` elements, resolve
`..` against a preceding element, drop `..` at the root, keep leading `..`
elements of a relative path, and return `.` for an empty result (so the
empty path maps to `.`). -/
def cleanPath (path : List Char) : List Char :=
  if path = [] then ['.']
  else
    let rooted : Bool :=
      match path with
      | '/' :: _ => true
      | _ => false
    let comps := (splitSlash path).filter fun c => !(c == []) && !(c == ['.'])
    let stack := comps.foldl
      (fun st c =>
        if c == ['.', '.'] then
          match st with
          | [] => if rooted then [] else [c]
          | top :: rest => if top == ['.', '.'] then c :: st else rest
        else c :: st)
      []
    assemblePath rooted (List.intercalate ['/'] stack.reverse)

/-- main.go 281: `cleanedFilename := filepath.Clean(name)`. -/
def cleanedFilename (name : String) : String :=
  String.mk (cleanPath name.data)

/-- main.go 282: the filesystem-safe filename derived from an entity
name — path-clean first, then collapse disallowed runs. -/
def safeFilename (name : String) : String :=
  replaceDisallowedRuns (cleanedFilename name)

/-- main.go 284: the path of the file written for an entity name. -/
def saveJSONToFilePath (name : String) : String :=
  "backups/" ++ safeFilename name ++ ".json"

/-! ## OAuth flow (main.go 20-29, 121-153) -/

/-- oauth2.Endpoint as used in main.go 303-306. -/
structure OAuthEndpoint where
  authUrl : String
  tokenUrl : String
deriving DecidableEq

/-- oauth2.Config as built in main.go 298-307. -/
structure OAuthConfig where
  clientID : String
  clientSecret : String
  redirectUrl : String
  scopeList : List String
  endpoint : OAuthEndpoint
deriving DecidableEq

/-- main.go 21. -/
def authURL : String := "https://accounts.spotify.com/authorize"

/-- main.go 22. -/
def tokenURL : String := "https://accounts.spotify.com/api/token"

/-- main.go 27. -/
def redirectURL : String := "http://localhost:8080/callback"

/-- main.go 28: the scopes requested by the program. -/
def scopes : List String := ["playlist-read-private", "user-library-read"]

/-- The configuration main builds (main.go 298-307); the client id and
secret come from the environment. -/
def mainConf (clientID clientSecret : String) : OAuthConfig :=
  { clientID := clientID
    clientSecret := clientSecret
    redirectUrl := redirectURL
    scopeList := scopes
    endpoint := { authUrl := authURL, tokenUrl := tokenURL } }

/-- Modelled from the golang.org/x/oauth2 library: `Config.AuthCodeURL`
serialises these query parameters (response type, client id, redirect URI,
space-joined scopes, and the caller's state) after the endpoint's
authorization URL. -/
def authCodeURLParams (conf : OAuthConfig) (state : String) : List (String × String) :=
  [("response_type", "code"),
   ("client_id", conf.clientID),
   ("redirect_uri", conf.redirectUrl),
   ("scope", String.intercalate " " conf.scopeList),
   ("state", state)]

/-- Render a query-parameter list as a query string. -/
def renderQuery (params : List (String × String)) : String :=
  String.intercalate "&" (params.map fun p => p.1 ++ "=" ++ p.2)

/-- Modelled from golang.org/x/oauth2 `Config.AuthCodeURL`. -/
def authCodeURL (conf : OAuthConfig) (state : String) : String :=
  conf.endpoint.authUrl ++ "?" ++ renderQuery (authCodeURLParams conf state)

/-- main.go 123: the anti-forgery state oauthFlow uses is a hardcoded
string literal, computed with no per-run input. -/
def oauthFlowState : String := "random-string-for-state-check"

/-- The state value a given program run embeds in its authorization URL.
The run index is only a label for a run: the Go code (main.go 123) computes
the state with no dependence on the run, so this is the constant
`oauthFlowState`. -/
def oauthFlowStateOfRun (_run : Nat) : String := oauthFlowState

/-- main.go 125: the authorization URL oauthFlow presents to the user. -/
def oauthFlowURL (conf : OAuthConfig) : String :=
  authCodeURL conf oauthFlowState

/-- oauth2.Token (access token, token type, refresh token, expiry). -/
structure Token where
  accessToken : String
  tokenType : String
  refreshToken : String
  expiry : Int
deriving DecidableEq

/-- How the callback handler (main.go 130-147) ends. -/
inductive CallbackResult where
  | fatalInvalidState (received : String)
  | fatalExchangeError (msg : String)
  | authorized
deriving DecidableEq

/-- Observable effects of one invocation of the callback handler:
its final result, the token written to `token_cache.json` by `saveToken`
(if any), and whether `conf.Exchange` was invoked. -/
structure CallbackEffects where
  result : CallbackResult
  savedTokenFile : Option Token
  exchangeCalled : Bool
deriving DecidableEq

/-- main.go 130-147: the `/callback` handler.  `exchange` abstracts
`conf.Exchange(ctx, code)`.  A state mismatch is `log.Fatalf` — the
process stops before exchanging the code or saving any token; an exchange
failure is also fatal; on success the token is saved and the process exits
normally. -/
def callbackHandler (exchange : String → Except String Token)
    (code receivedState : String) : CallbackEffects :=
  if oauthFlowState ≠ receivedState then
    { result := .fatalInvalidState receivedState
      savedTokenFile := none
      exchangeCalled := false }
  else
    match exchange code with
    | .error e =>
        { result := .fatalExchangeError e, savedTokenFile := none, exchangeCalled := true }
    | .ok token =>
        { result := .authorized, savedTokenFile := some token, exchangeCalled := true }

/-! ## Orchestration (main, main.go 291-345)

`mainBackup` models main after the authenticated client exists: fetch the
playlists (fatal on error), then for each playlist fetch its tracks —
logging and skipping the playlist on error, writing its file on success —
and finally fetch and write the saved tracks (fatal on error).  One
`String → GetOutcome TracksPage` client serves both track endpoints, as
the single Go http.Client does. -/

/-- Outcome of a whole run of main's backup phase. -/
inductive RunOutcome where
  | fatalError (msg : String)
  | panicked
  | outOfFuel
  | completed (files : List String) (logs : List String)
deriving DecidableEq

/-- main.go 327-336: the per-playlist loop.  `files` accumulates the paths
written by saveJSONToFile, `logs` the `log.Printf` lines of skipped
playlists.  A panic or out-of-fuel result aborts the model run. -/
def playlistLoop (clientT : String → GetOutcome TracksPage) (fuelT : Nat) :
    List Playlist → List String → List String → RunOutcome ⊕ (List String × List String)
  | [], files, logs => .inr (files, logs)
  | p :: ps, files, logs =>
      match (fetchPlaylistTracks clientT p fuelT).1 with
      | .ok _tracks => playlistLoop clientT fuelT ps (files ++ [saveJSONToFilePath p.name]) logs
      | .error e =>
          playlistLoop clientT fuelT ps files
            (logs ++ ["Error fetching tracks for playlist " ++ p.name ++ ": " ++ e])
      | .panic => .inl .panicked
      | .outOfFuel => .inl .outOfFuel

/-- main.go 320-345. -/
def mainBackup (clientP : String → GetOutcome PlaylistPage)
    (clientT : String → GetOutcome TracksPage) (fuelP fuelT fuelS : Nat) : RunOutcome :=
  match (fetchPlaylists clientP fuelP).1 with
  | .error e => .fatalError ("Error fetching playlists: " ++ e)
  | .panic => .panicked
  | .outOfFuel => .outOfFuel
  | .ok playlists =>
      match playlistLoop clientT fuelT playlists [] [] with
      | .inl r => r
      | .inr (files, logs) =>
          match (fetchSavedTracks clientT fuelS).1 with
          | .error e => .fatalError ("Error fetching saved tracks: " ++ e)
          | .panic => .panicked
          | .outOfFuel => .outOfFuel
          | .ok _saved => .completed (files ++ [saveJSONToFilePath "saved_tracks"]) logs

/-! ## Page chains

A chain hypothesis states which pages a client serves along the cursor
path starting from a URL. -/

/-- The client serves, starting at `u`, exactly the pages `ps` linked by
their `next` cursors, the last cursor being empty: each page's URL is
non-empty, its GET succeeds and decodes to the page, and its `next` leads
to the rest. -/
def playlistChain (client : String → GetOutcome PlaylistPage) :
    String → List PlaylistPage → Bool
  | u, [] => decide (u = "")
  | u, p :: ps =>
      decide (u ≠ "") && decide (client u = .body (some p)) && playlistChain client p.next ps

/-- Same as `playlistChain`, for track pages. -/
def tracksChain (client : String → GetOutcome TracksPage) :
    String → List TracksPage → Bool
  | u, [] => decide (u = "")
  | u, p :: ps =>
      decide (u ≠ "") && decide (client u = .body (some p)) && tracksChain client p.next ps

/-- The client serves, starting at `u`, the full pages `qs` (each with at
least 50 items, the saved-tracks limit) linked by their `next` cursors,
with the cursor after the last full page being `v`. -/
def savedFullChain (client : String → GetOutcome TracksPage) :
    String → List TracksPage → String → Bool
  | u, [], v => decide (u = v)
  | u, q :: qs, v =>
      decide (client u = .body (some q)) && decide (50 ≤ q.items.length)
        && savedFullChain client q.next qs v

/-! ## Helper lemmas -/

theorem fetchPlaylistsLoop_chain (client : String → GetOutcome PlaylistPage) :
    ∀ (ps : List PlaylistPage) (u : String) (acc : List Playlist) (fuel : Nat),
      playlistChain client u ps = true → ps.length ≤ fuel →
      (fetchPlaylistsLoop client fuel u acc).1 = .ok (acc ++ (ps.map PlaylistPage.items).join)
      ∧ (fetchPlaylistsLoop client fuel u acc).2.length = ps.length := by
  intro ps
  induction ps with
  | nil =>
      intro u acc fuel hchain _
      have hu : u = "" := by simpa [playlistChain] using hchain
      subst hu
      cases fuel <;> simp [fetchPlaylistsLoop]
  | cons p ps ih =>
      intro u acc fuel hchain hfuel
      simp only [playlistChain, Bool.and_eq_true, decide_eq_true_eq] at hchain
      obtain ⟨⟨hu, hc⟩, hrest⟩ := hchain
      cases fuel with
      | zero => simp at hfuel
      | succ f =>
          have hf : ps.length ≤ f := by simpa using hfuel
          obtain ⟨ih1, ih2⟩ := ih p.next (acc ++ p.items) f hrest hf
          simp only [fetchPlaylistsLoop, if_neg hu, hc, Option.getD_some]
          constructor
          · rw [ih1]
            simp [List.append_assoc]
          · simp [ih2]

theorem fetchPlaylistTracksLoop_chain (client : String → GetOutcome TracksPage) :
    ∀ (ps : List TracksPage) (u : String) (acc : List Item) (fuel : Nat),
      tracksChain client u ps = true → ps.length ≤ fuel →
      (fetchPlaylistTracksLoop client fuel u acc).1 = .ok (acc ++ (ps.map TracksPage.items).join)
      ∧ (fetchPlaylistTracksLoop client fuel u acc).2.length = ps.length := by
  intro ps
  induction ps with
  | nil =>
      intro u acc fuel hchain _
      have hu : u = "" := by simpa [tracksChain] using hchain
      subst hu
      cases fuel <;> simp [fetchPlaylistTracksLoop]
  | cons p ps ih =>
      intro u acc fuel hchain hfuel
      simp only [tracksChain, Bool.and_eq_true, decide_eq_true_eq] at hchain
      obtain ⟨⟨hu, hc⟩, hrest⟩ := hchain
      cases fuel with
      | zero => simp at hfuel
      | succ f =>
          have hf : ps.length ≤ f := by simpa using hfuel
          obtain ⟨ih1, ih2⟩ := ih p.next (acc ++ p.items) f hrest hf
          simp only [fetchPlaylistTracksLoop, if_neg hu, hc, Option.getD_some]
          constructor
          · rw [ih1]
            simp [List.append_assoc]
          · simp [ih2]

theorem fetchSavedTracksLoop_short (client : String → GetOutcome TracksPage)
    (lastPage : TracksPage) :
    ∀ (qs : List TracksPage) (u v : String) (acc : List Item) (fuel : Nat),
      savedFullChain client u qs v = true →
      client v = .body (some lastPage) →
      lastPage.items.length < 50 →
      qs.length + 1 ≤ fuel →
      (fetchSavedTracksLoop client fuel u acc).1
        = .ok (acc ++ (qs.map TracksPage.items).join ++ lastPage.items)
      ∧ (fetchSavedTracksLoop client fuel u acc).2.length = qs.length + 1 := by
  intro qs
  induction qs with
  | nil =>
      intro u v acc fuel hchain hlast hshort hfuel
      have hu : u = v := by simpa [savedFullChain] using hchain
      subst hu
      cases fuel with
      | zero => simp at hfuel
      | succ f =>
          simp only [fetchSavedTracksLoop, hlast, Option.getD_some, if_pos hshort]
          simp
  | cons q qs ih =>
      intro u v acc fuel hchain hlast hshort hfuel
      simp only [savedFullChain, Bool.and_eq_true, decide_eq_true_eq] at hchain
      obtain ⟨⟨hc, hfull⟩, hrest⟩ := hchain
      cases fuel with
      | zero => simp at hfuel
      | succ f =>
          simp only [List.length_cons] at hfuel
          have hf : qs.length + 1 ≤ f := by omega
          obtain ⟨ih1, ih2⟩ := ih q.next v (acc ++ q.items) f hrest hlast hshort hf
          simp only [fetchSavedTracksLoop, hc, Option.getD_some, if_neg (Nat.not_lt.mpr hfull)]
          constructor
          · rw [ih1]
            simp [List.append_assoc]
          · simp [ih2]

theorem fetchSavedTracksLoop_emptyNext (client : String → GetOutcome TracksPage)
    (lastPage : TracksPage) (m : String) :
    ∀ (qs : List TracksPage) (u v : String) (acc : List Item) (fuel : Nat),
      savedFullChain client u qs v = true →
      client v = .body (some lastPage) →
      50 ≤ lastPage.items.length →
      lastPage.next = "" →
      client "" = .transportError m →
      qs.length + 2 ≤ fuel →
      (fetchSavedTracksLoop client fuel u acc).1
        = .error ("failed to fetch saved tracks: " ++ m)
      ∧ (fetchSavedTracksLoop client fuel u acc).2.length = qs.length + 2 := by
  intro qs
  induction qs with
  | nil =>
      intro u v acc fuel hchain hlast hfull hnext hempty hfuel
      have hu : u = v := by simpa [savedFullChain] using hchain
      subst hu
      cases fuel with
      | zero => simp at hfuel
      | succ f =>
          cases f with
          | zero => omega
          | succ f =>
              simp only [fetchSavedTracksLoop, hlast, Option.getD_some,
                if_neg (Nat.not_lt.mpr hfull), hnext, hempty]
              simp
  | cons q qs ih =>
      intro u v acc fuel hchain hlast hfull hnext hempty hfuel
      simp only [savedFullChain, Bool.and_eq_true, decide_eq_true_eq] at hchain
      obtain ⟨⟨hc, hqfull⟩, hrest⟩ := hchain
      cases fuel with
      | zero => simp at hfuel
      | succ f =>
          simp only [List.length_cons] at hfuel
          have hf : qs.length + 2 ≤ f := by omega
          obtain ⟨ih1, ih2⟩ := ih q.next v (acc ++ q.items) f hrest hlast hfull hnext hempty hf
          simp only [fetchSavedTracksLoop, hc, Option.getD_some, if_neg (Nat.not_lt.mpr hqfull)]
          constructor
          · rw [ih1]
          · simp [ih2]

theorem assemblePath_ne_nil (rooted : Bool) (body : List Char) :
    assemblePath rooted body ≠ [] := by
  cases rooted <;> cases body <;> simp [assemblePath]

theorem cleanPath_ne_nil (p : List Char) : cleanPath p ≠ [] := by
  unfold cleanPath
  split
  · simp
  · exact assemblePath_ne_nil _ _

theorem collapseAux_false_length_pos (c : Char) (cs : List Char) :
    0 < (collapseAux (c :: cs) false).length := by
  cases h : isWordChar c <;> simp [collapseAux, h]

/-! ## Concrete witness data -/

/-- Sample playlist A. -/
def pgA : Playlist := { name := "A", id := "a" }

/-- Sample playlist B. -/
def pgB : Playlist := { name := "B", id := "b" }

/-- First of two chained playlist pages. -/
def ppage1 : PlaylistPage :=
  { items := [pgA], href := "", limit := 50, next := "u2", offset := 0, previous := "", total := 2 }

/-- Second (final) playlist page: empty cursor. -/
def ppage2 : PlaylistPage :=
  { items := [pgB], href := "", limit := 50, next := "", offset := 0, previous := "", total := 2 }

/-- Client serving the two playlist pages along their cursors. -/
def demoClientP : String → GetOutcome PlaylistPage := fun u =>
  if u = playlistsInitialUrl then .body (some ppage1)
  else if u = "u2" then .body (some ppage2)
  else .transportError "unexpected"

/-- All-zero album. -/
def zeroAlbum : Album :=
  { albumGroup := "", albumType := "", artists := [], externalUrls := { spotify := "" },
    href := "", id := "", images := [], name := "", releaseDate := "",
    releaseDatePrecision := "", totalTracks := 0, type' := "", uri := "" }

/-- All-zero track. -/
def zeroTrack : Track :=
  { album := zeroAlbum, artists := [], discNumber := 0, durationMs := 0, explicit := false,
    externalIds := { isrc := "" }, externalUrls := { spotify := "" }, href := "", id := "",
    isLocal := false, name := "", popularity := 0, previewUrl := "", trackNumber := 0,
    type' := "", uri := "" }

/-- Sample saved/playlist track item. -/
def sampleItem : Item := { addedAt := "t", track := zeroTrack }

/-- Single final track page for playlist `pgA`. -/
def tpage1 : TracksPage :=
  { items := [sampleItem], href := "", limit := 100, next := "", offset := 0,
    previous := "", total := 1 }

/-- Client serving the single track page of playlist `pgA`. -/
def demoClientT : String → GetOutcome TracksPage := fun u =>
  if u = playlistTracksInitialUrl pgA then .body (some tpage1)
  else .transportError "unexpected"

/-- A saved-tracks page with exactly 50 items and an empty `next` cursor. -/
def fullLastPage : TracksPage :=
  { items := List.replicate 50 sampleItem, href := "", limit := 50, next := "", offset := 0,
    previous := "", total := 50 }

/-- Client for the saved-tracks endpoint whose first page is `fullLastPage`.
Every other URL — including the empty URL, which Go's `net/http` always
rejects with `unsupported protocol scheme` before any network activity —
fails with a transport error. -/
def clientFullLast : String → GetOutcome TracksPage := fun u =>
  if u = savedTracksInitialUrl then .body (some fullLastPage)
  else .transportError "unsupported protocol scheme"

/-- A full saved-tracks page (50 items) whose cursor points to `more2`. -/
def fullPage50next : TracksPage :=
  { items := List.replicate 50 sampleItem, href := "", limit := 50, next := "more2", offset := 0,
    previous := "", total := 51 }

/-- A short saved-tracks page (1 item) with a non-empty `next` cursor. -/
def shortPage : TracksPage :=
  { items := [sampleItem], href := "", limit := 50, next := "more", offset := 0,
    previous := "", total := 51 }

/-- Client serving one full saved-tracks page and then a short page whose
cursor is non-empty. -/
def clientShort : String → GetOutcome TracksPage := fun u =>
  if u = savedTracksInitialUrl then .body (some fullPage50next)
  else if u = "more2" then .body (some shortPage)
  else .transportError "x"

/-- Client whose every GET fails with a transport error (playlist pages). -/
def transportFailClientP : String → GetOutcome PlaylistPage :=
  fun _ => .transportError "connection refused"

/-- Client whose every GET fails with a transport error (track pages). -/
def transportFailClientT : String → GetOutcome TracksPage :=
  fun _ => .transportError "connection refused"

/-- Client whose first playlist page is valid and whose second page's body
is not decodable JSON. -/
def clientBadBody : String → GetOutcome PlaylistPage := fun u =>
  if u = playlistsInitialUrl then .body (some ppage1)
  else if u = "u2" then .body none
  else .transportError "unexpected"

/-- Playlist-page client always returning an undecodable body. -/
def badBodyClientP : String → GetOutcome PlaylistPage := fun _ => .body none

/-- Track-page client always returning an undecodable body. -/
def badBodyClientT : String → GetOutcome TracksPage := fun _ => .body none

/-- Exchange oracle that always succeeds. -/
def exchangeAlways : String → Except String Token :=
  fun _ => .ok { accessToken := "at", tokenType := "Bearer", refreshToken := "rt", expiry := 0 }

/-- Playlist with a failing tracks endpoint (witness for the skip tier). -/
def pBad : Playlist := { name := "bad", id := "bb" }

/-- Playlist with a working tracks endpoint. -/
def pGood : Playlist := { name := "good", id := "gg" }

/-- Track client for the orchestration witness: playlist `pBad`'s tracks
request fails while being read, the saved-tracks request fails while being
read, everything else decodes to the final track page `tpage1`. -/
def clientTW : String → GetOutcome TracksPage := fun u =>
  if u = playlistTracksInitialUrl pBad then .readError "boom"
  else if u = savedTracksInitialUrl then .readError "sfail"
  else .body (some tpage1)

/-- Playlist client whose body read always fails. -/
def clientPRead : String → GetOutcome PlaylistPage := fun _ => .readError "down"

/-- An empty final playlist page. -/
def emptyPlaylistPage : PlaylistPage :=
  { items := [], href := "", limit := 50, next := "", offset := 0, previous := "", total := 0 }

/-- Playlist client serving one empty final page. -/
def clientPEmpty : String → GetOutcome PlaylistPage := fun u =>
  if u = playlistsInitialUrl then .body (some emptyPlaylistPage)
  else .transportError "x"

/-! ## Claim theorems -/

/-- C1: for every cursor chain of pages — each page with a non-empty
`next` except the last, whose cursor is empty — fetchPlaylists and
fetchPlaylistTracks return the concatenation of all pages' items in
original order and issue exactly one GET request per page. -/
theorem fetchers_concat_and_one_request_per_page
    (clientP : String → GetOutcome PlaylistPage) (clientT : String → GetOutcome TracksPage)
    (pl : Playlist) (psP : List PlaylistPage) (psT : List TracksPage) (fuelP fuelT : Nat)
    (hP : playlistChain clientP playlistsInitialUrl psP = true)
    (hT : tracksChain clientT (playlistTracksInitialUrl pl) psT = true)
    (hfP : psP.length ≤ fuelP) (hfT : psT.length ≤ fuelT) :
    (fetchPlaylists clientP fuelP).1 = .ok ((psP.map PlaylistPage.items).join)
    ∧ (fetchPlaylists clientP fuelP).2.length = psP.length
    ∧ (fetchPlaylistTracks clientT pl fuelT).1 = .ok ((psT.map TracksPage.items).join)
    ∧ (fetchPlaylistTracks clientT pl fuelT).2.length = psT.length := by
  obtain ⟨h1, h2⟩ := fetchPlaylistsLoop_chain clientP psP playlistsInitialUrl [] fuelP hP hfP
  obtain ⟨h3, h4⟩ :=
    fetchPlaylistTracksLoop_chain clientT psT (playlistTracksInitialUrl pl) [] fuelT hT hfT
  refine ⟨?_, ?_, ?_, ?_⟩
  · simpa [fetchPlaylists] using h1
  · simpa [fetchPlaylists] using h2
  · simpa [fetchPlaylistTracks] using h3
  · simpa [fetchPlaylistTracks] using h4

/-- Witness for C1: a two-page playlist chain and a one-page track chain. -/
theorem fetchers_concat_and_one_request_per_page_witness :
    (fetchPlaylists demoClientP 2).1 = .ok (([ppage1, ppage2].map PlaylistPage.items).join)
    ∧ (fetchPlaylists demoClientP 2).2.length = [ppage1, ppage2].length
    ∧ (fetchPlaylistTracks demoClientT pgA 1).1 = .ok (([tpage1].map TracksPage.items).join)
    ∧ (fetchPlaylistTracks demoClientT pgA 1).2.length = [tpage1].length :=
  fetchers_concat_and_one_request_per_page demoClientP demoClientT pgA
    [ppage1, ppage2] [tpage1] 2 1 (by decide) (by decide) (by decide) (by decide)

/-- C5: a saved-tracks page with fewer than 50 items ends the fetch at
that page — even when its `next` cursor is non-empty — returning
everything accumulated up to and including that page, with one GET per
page. -/
theorem fetchSavedTracks_short_page_terminates
    (client : String → GetOutcome TracksPage) (qs : List TracksPage) (lastPage : TracksPage)
    (v : String) (fuel : Nat)
    (hchain : savedFullChain client savedTracksInitialUrl qs v = true)
    (hlast : client v = .body (some lastPage))
    (hshort : lastPage.items.length < 50)
    (hfuel : qs.length + 1 ≤ fuel) :
    (fetchSavedTracks client fuel).1
      = .ok ((qs.map TracksPage.items).join ++ lastPage.items)
    ∧ (fetchSavedTracks client fuel).2.length = qs.length + 1 := by
  obtain ⟨h1, h2⟩ := fetchSavedTracksLoop_short client lastPage qs
    savedTracksInitialUrl v [] fuel hchain hlast hshort hfuel
  exact ⟨by simpa [fetchSavedTracks] using h1, by simpa [fetchSavedTracks] using h2⟩

/-- Witness for C5: one full page, then a 1-item page whose cursor is the
non-empty `more`; the fetch stops there with all 51 items. -/
theorem fetchSavedTracks_short_page_terminates_witness :
    (fetchSavedTracks clientShort 2).1
      = .ok (([fullPage50next].map TracksPage.items).join ++ shortPage.items)
    ∧ (fetchSavedTracks clientShort 2).2.length = [fullPage50next].length + 1 :=
  fetchSavedTracks_short_page_terminates clientShort [fullPage50next] shortPage "more2" 2
    (by decide) (by decide) (by decide) (by decide)

/-- C2 counterexample: a saved-tracks page with an empty `next` cursor and
50 items does not end the fetch successfully: the loop issues a second GET,
for the empty URL, and the whole fetch returns an error instead of the
page's 50 items. -/
theorem fetchSavedTracks_full_last_page_not_success :
    (fetchSavedTracks clientFullLast 2).1
      = .error "failed to fetch saved tracks: unsupported protocol scheme"
    ∧ (fetchSavedTracks clientFullLast 2).2 = [savedTracksInitialUrl, ""]
    ∧ (fetchSavedTracks clientFullLast 2).1 ≠ .ok (List.replicate 50 sampleItem) := by
  decide

/-- C2 (amended): fetchSavedTracks pagination terminates successfully
exactly when the returned page's item count is below the requested page
size (limit 50).  A page with fewer than 50 items ends the fetch
successfully regardless of its cursor; a page with at least 50 items never
does — in particular, when its `next` cursor is empty the loop GETs the
empty URL, which `net/http` rejects, and the fetch returns an error. -/
theorem fetchSavedTracks_termination_amended
    (client : String → GetOutcome TracksPage) (qs : List TracksPage) (lastPage : TracksPage)
    (v m : String) (fuel : Nat)
    (hchain : savedFullChain client savedTracksInitialUrl qs v = true)
    (hlast : client v = .body (some lastPage)) :
    (lastPage.items.length < 50 → qs.length + 1 ≤ fuel →
      (fetchSavedTracks client fuel).1
        = .ok ((qs.map TracksPage.items).join ++ lastPage.items))
    ∧ (50 ≤ lastPage.items.length → lastPage.next = "" →
        client "" = .transportError m → qs.length + 2 ≤ fuel →
        (fetchSavedTracks client fuel).1
          = .error ("failed to fetch saved tracks: " ++ m)) := by
  constructor
  · intro hshort hfuel
    have h := (fetchSavedTracksLoop_short client lastPage qs
      savedTracksInitialUrl v [] fuel hchain hlast hshort hfuel).1
    simpa [fetchSavedTracks] using h
  · intro hfull hnext hempty hfuel
    have h := (fetchSavedTracksLoop_emptyNext client lastPage m qs
      savedTracksInitialUrl v [] fuel hchain hlast hfull hnext hempty hfuel).1
    simpa [fetchSavedTracks] using h

/-- Witness for the amended C2, error branch: a single 50-item page with
an empty cursor makes the whole fetch fail. -/
theorem fetchSavedTracks_termination_amended_witness :
    (fetchSavedTracks clientFullLast 2).1
      = .error ("failed to fetch saved tracks: " ++ "unsupported protocol scheme") :=
  (fetchSavedTracks_termination_amended clientFullLast [] fullLastPage
      savedTracksInitialUrl "unsupported protocol scheme" 2 (by decide) (by decide)).2
    (by decide) (by decide) (by decide) (by decide)

/-- C3: what the code does on a transport error: fetchPlaylists and
fetchPlaylistTracks execute `resp.Body.Close()` on the nil response and
panic instead of returning the wrapped error; only fetchSavedTracks
returns the wrapped error (with no items), as the claim states. -/
theorem transport_error_panics_not_returns :
    fetchPlaylists transportFailClientP 1 = (.panic, [playlistsInitialUrl])
    ∧ fetchPlaylistTracks transportFailClientT pgA 1 = (.panic, [playlistTracksInitialUrl pgA])
    ∧ (fetchSavedTracks transportFailClientT 1).1
        = .error "failed to fetch saved tracks: connection refused" := by
  exact ⟨rfl, rfl, rfl⟩

/-- C4 counterexample: when the second page's body fails to decode, the
fetch does not abort with a decode error: `json.Unmarshal`'s error is
ignored, the page keeps its zero value, the loop ends, and the items of
the first page are returned as a success — partial results, no error. -/
theorem decode_failure_returns_partial_ok :
    (fetchPlaylists clientBadBody 2).1 = .ok [pgA]
    ∧ (fetchPlaylists clientBadBody 2).2 = [playlistsInitialUrl, "u2"] := by
  exact ⟨rfl, rfl⟩

/-- C4 (amended): in all three fetchers an undecodable page body is
silently ignored: the `json.Unmarshal` error is discarded, the envelope
keeps its zero value (no items, empty cursor), so the fetch ends at that
page returning the previously accumulated items with no error. -/
theorem decode_failure_silently_ignored
    (cP : String → GetOutcome PlaylistPage) (cT cS : String → GetOutcome TracksPage)
    (u : String) (accP : List Playlist) (accT accS : List Item) (fuel : Nat)
    (hu : u ≠ "")
    (hP : cP u = .body none) (hT : cT u = .body none) (hS : cS u = .body none) :
    fetchPlaylistsLoop cP (fuel + 1) u accP = (.ok accP, [u])
    ∧ fetchPlaylistTracksLoop cT (fuel + 1) u accT = (.ok accT, [u])
    ∧ fetchSavedTracksLoop cS (fuel + 1) u accS = (.ok accS, [u]) := by
  refine ⟨?_, ?_, ?_⟩
  · have hz : ∀ f accz, fetchPlaylistsLoop cP f "" accz = (.ok accz, []) := by
      intro f accz
      cases f <;> simp [fetchPlaylistsLoop]
    simp [fetchPlaylistsLoop, if_neg hu, hP, zeroPlaylistPage, hz]
  · have hz : ∀ f accz, fetchPlaylistTracksLoop cT f "" accz = (.ok accz, []) := by
      intro f accz
      cases f <;> simp [fetchPlaylistTracksLoop]
    simp [fetchPlaylistTracksLoop, if_neg hu, hT, zeroTracksPage, hz]
  · simp [fetchSavedTracksLoop, hS, zeroTracksPage]

/-- Witness for the amended C4 at a concrete undecodable body. -/
theorem decode_failure_silently_ignored_witness :
    fetchPlaylistsLoop badBodyClientP 1 "x" [] = (.ok [], ["x"])
    ∧ fetchPlaylistTracksLoop badBodyClientT 1 "x" [] = (.ok [], ["x"])
    ∧ fetchSavedTracksLoop badBodyClientT 1 "x" [] = (.ok [], ["x"]) :=
  decode_failure_silently_ignored badBodyClientP badBodyClientT badBodyClientT
    "x" [] [] [] 0 (by decide) rfl rfl rfl

/-- C6 counterexample: the claimed rule — collapse disallowed runs in the
name itself — yields `""` for the empty name, but saveJSONToFile first
path-cleans the name, which maps `""` to `"."`, so the derived filename is
`"-"`: the rule alone does not determine the output for the empty
string. -/
theorem sanitizer_empty_name_deviates :
    safeFilename "" = "-"
    ∧ replaceDisallowedRuns "" = ""
    ∧ safeFilename "" ≠ replaceDisallowedRuns "" := by
  decide

/-- C6 (amended): the filename derived by saveJSONToFile is the
path-cleaned name (Go `filepath.Clean`) with every maximal run of
characters outside `[A-Za-z0-9_]` collapsed to a single `-`; on names
untouched by cleaning this is exactly the claimed rule — "My Playlist #1!"
maps to "My-Playlist-1-", the mixed punctuation "a.b(c)" to "a-b-c-", and
the Unicode name "düsseldorf" to "d-sseldorf" — but the empty string maps
to "-" (its path-cleaning is "."), not to "". -/
theorem sanitizer_rule_after_path_cleaning :
    (∀ name : String, safeFilename name = replaceDisallowedRuns (cleanedFilename name))
    ∧ safeFilename "My Playlist #1!" = "My-Playlist-1-"
    ∧ safeFilename "a.b(c)" = "a-b-c-"
    ∧ safeFilename "düsseldorf" = "d-sseldorf"
    ∧ safeFilename "" = "-" :=
  ⟨fun _ => rfl, by decide, by decide, by decide, by decide⟩

/-- C7: a provider callback whose `state` differs from the issued value is
a fatal abort: the authorization code is not exchanged and no token is
persisted (the token cache file is not written on that path). -/
theorem state_mismatch_aborts_without_persisting
    (exchange : String → Except String Token) (code received : String)
    (h : received ≠ oauthFlowState) :
    callbackHandler exchange code received
      = { result := .fatalInvalidState received, savedTokenFile := none,
          exchangeCalled := false } := by
  have h' : oauthFlowState ≠ received := fun e => h e.symm
  unfold callbackHandler
  rw [if_pos h']

/-- Witness for C7 at a concrete mismatching state. -/
theorem state_mismatch_aborts_without_persisting_witness :
    callbackHandler exchangeAlways "authcode" "evil-state"
      = { result := .fatalInvalidState "evil-state", savedTokenFile := none,
          exchangeCalled := false } :=
  state_mismatch_aborts_without_persisting exchangeAlways "authcode" "evil-state" (by decide)

/-- C8: error tiers of main: a single playlist's track-fetch failure is
logged and that playlist skipped — no file written for it, the loop
continues with the remaining playlists — while a playlist-enumeration
failure or a saved-tracks failure makes the whole run fatal. -/
theorem main_error_tiers
    (clientT clientT3 : String → GetOutcome TracksPage)
    (clientP clientP3 : String → GetOutcome PlaylistPage)
    (p : Playlist) (ps pls : List Playlist)
    (files logs files3 logs3 : List String)
    (e e2 e3 : String) (fuelT fuelP fuelS fuelP3 fuelT3 fuelS3 : Nat)
    (hskip : (fetchPlaylistTracks clientT p fuelT).1 = .error e)
    (henum : (fetchPlaylists clientP fuelP).1 = .error e2)
    (hok : (fetchPlaylists clientP3 fuelP3).1 = .ok pls)
    (hloop : playlistLoop clientT3 fuelT3 pls [] [] = .inr (files3, logs3))
    (hsaved : (fetchSavedTracks clientT3 fuelS3).1 = .error e3) :
    playlistLoop clientT fuelT (p :: ps) files logs
      = playlistLoop clientT fuelT ps files
          (logs ++ ["Error fetching tracks for playlist " ++ p.name ++ ": " ++ e])
    ∧ mainBackup clientP clientT fuelP fuelT fuelS
      = .fatalError ("Error fetching playlists: " ++ e2)
    ∧ mainBackup clientP3 clientT3 fuelP3 fuelT3 fuelS3
      = .fatalError ("Error fetching saved tracks: " ++ e3) := by
  refine ⟨?_, ?_, ?_⟩
  · simp [playlistLoop, hskip]
  · simp [mainBackup, henum]
  · simp [mainBackup, hok, hloop, hsaved]

/-- Witness for C8: playlist `pBad` fails and is skipped with a log line;
a failing enumeration aborts the run; a failing saved-tracks fetch aborts
the run. -/
theorem main_error_tiers_witness :
    playlistLoop clientTW 1 (pBad :: [pGood]) [] []
      = playlistLoop clientTW 1 [pGood] []
          ([] ++ ["Error fetching tracks for playlist " ++ pBad.name ++ ": "
              ++ "failed to read tracks response: boom"])
    ∧ mainBackup clientPRead clientTW 1 1 1
      = .fatalError ("Error fetching playlists: " ++ "failed to read playlists response: down")
    ∧ mainBackup clientPEmpty clientTW 1 1 1
      = .fatalError ("Error fetching saved tracks: "
          ++ "failed to read saved tracks response: sfail") :=
  main_error_tiers clientTW clientTW clientPRead clientPEmpty pBad [pGood] []
    [] [] [] [] "failed to read tracks response: boom"
    "failed to read playlists response: down" "failed to read saved tracks response: sfail"
    1 1 1 1 1 1 rfl rfl rfl rfl rfl

/-- C9 counterexample: the anti-forgery state is not freshly generated per
run — it is the hardcoded literal of main.go 123 — so two independent runs
(run 0 and run 1) embed the same predictable state value. -/
theorem oauth_state_identical_across_runs :
    oauthFlowStateOfRun 0 = oauthFlowStateOfRun 1
    ∧ oauthFlowStateOfRun 0 = "random-string-for-state-check" :=
  ⟨rfl, rfl⟩

/-- C9 (amended): the state value embedded in the authorization URL is the
fixed constant "random-string-for-state-check" — identical across runs,
not freshly generated — and the URL does carry the required scopes
(`playlist-read-private user-library-read`). -/
theorem oauth_state_constant_and_scopes_amended (clientID clientSecret : String) :
    oauthFlowURL (mainConf clientID clientSecret)
      = authCodeURL (mainConf clientID clientSecret) "random-string-for-state-check"
    ∧ ("state", "random-string-for-state-check")
        ∈ authCodeURLParams (mainConf clientID clientSecret) oauthFlowState
    ∧ ("scope", "playlist-read-private user-library-read")
        ∈ authCodeURLParams (mainConf clientID clientSecret) oauthFlowState := by
  have hsc : String.intercalate " " (mainConf clientID clientSecret).scopeList
      = "playlist-read-private user-library-read" := rfl
  refine ⟨rfl, ?_, ?_⟩
  · simp [authCodeURLParams, oauthFlowState]
  · simp [authCodeURLParams, hsc]

/-- Witness for the amended C9 at a concrete configuration. -/
theorem oauth_state_constant_and_scopes_amended_witness :
    oauthFlowURL (mainConf "cid" "secret")
      = authCodeURL (mainConf "cid" "secret") "random-string-for-state-check"
    ∧ ("state", "random-string-for-state-check")
        ∈ authCodeURLParams (mainConf "cid" "secret") oauthFlowState
    ∧ ("scope", "playlist-read-private user-library-read")
        ∈ authCodeURLParams (mainConf "cid" "secret") oauthFlowState :=
  oauth_state_constant_and_scopes_amended "cid" "secret"

/-- C10: for every entity name the derived safe filename is non-empty; the
empty name is path-cleaned to ".", which the sanitizer collapses to a
single "-", so the file written inside the backups directory is "-.json"
rather than ".json". -/
theorem safeFilename_nonempty_and_empty_case :
    (∀ name : String, 0 < (safeFilename name).length)
    ∧ cleanedFilename "" = "."
    ∧ replaceDisallowedRuns "." = "-"
    ∧ safeFilename "" = "-"
    ∧ saveJSONToFilePath "" = "backups/-.json" := by
  refine ⟨?_, by decide, by decide, by decide, by decide⟩
  intro name
  obtain ⟨c, cs, hcc⟩ := List.exists_cons_of_ne_nil (cleanPath_ne_nil name.data)
  have hrfl : safeFilename name = String.mk (collapseAux (cleanPath name.data) false) := rfl
  rw [hrfl, hcc]
  exact collapseAux_false_length_pos c cs

/-- Witness for C10 at a concrete entity name. -/
theorem safeFilename_nonempty_and_empty_case_witness :
    0 < (safeFilename "saved_tracks").length :=
  safeFilename_nonempty_and_empty_case.1 "saved_tracks"

end SpotifyBackup
